import Mathlib

/-!
# Verification of the conduit TCP forward proxy against its specification

This file gives a shallow embedding, in Lean 4, of the parts of the conduit
proxy that the specification's claims are about:

* the Go `net.SplitHostPort` / `net.JoinHostPort` address helpers used by the
  HTTP CONNECT handler and the known-hosts normalization;
* the SOCKS5 zero-address reply constructor (`internal/socks5/reply.go`);
* the SOCKS5 server handler and HTTP CONNECT handler outcome traces
  (`internal/proxy/socks5_server.go`, `internal/proxy/http_proxy.go`);
* the dialer family's network gates and the upstream-URL dialer constructor
  (`internal/dialer/*.go`);
* the SSH channel dialer's invalidate-and-retry logic, transport cache, and
  single-flighted connect (`internal/ssh/client.go`,
  `internal/dialer/ssh_proxy.go`);
* the known-hosts trust-on-first-use callback (`internal/ssh/knownhosts.go`);
* the default-upstream environment lookup (`main.go`).

I/O and the network are modelled by explicit environments (oracles) describing
the outcome of each read, write, dial and handshake; stateful code is modelled
as explicit state passing or as a step relation on a state type.
-/

namespace Conduit

/-! ## Go net address helpers

Faithful translations of `net.SplitHostPort` and `net.JoinHostPort` from the
Go standard library, which the repository uses in
`internal/proxy/http_proxy.go` (`handleConnect`) and which
`golang.org/x/crypto/ssh/knownhosts.Normalize` uses.  Strings are treated as
their character lists; the code under analysis only handles ASCII host names,
for which Go's byte indexing and this character indexing agree.
-/

/-- Index of the last occurrence of `c` in `l` (Go `bytealg.LastIndexByteString`). -/
def lastIdxOf (c : Char) (l : List Char) : Option Nat :=
  match l with
  | [] => none
  | x :: xs =>
    match lastIdxOf c xs with
    | some i => some (i + 1)
    | none => if x = c then some 0 else none

/-- Index of the first occurrence of `c` in `l` (Go `bytealg.IndexByteString`). -/
def firstIdxOf (c : Char) (l : List Char) : Option Nat :=
  match l with
  | [] => none
  | x :: xs =>
    if x = c then some 0
    else
      match firstIdxOf c xs with
      | some i => some (i + 1)
      | none => none

/-- Go `net.SplitHostPort`.  Returns `some (host, port)` on success and `none`
where the Go function returns an `AddrError` (missing port, too many colons,
missing or unexpected bracket). -/
def splitHostPort (hostPort : String) : Option (String × String) :=
  let cs := hostPort.data
  match lastIdxOf ':' cs with
  | none => none
  | some i =>
    if cs.head? = some '[' then
      match firstIdxOf ']' cs with
      | none => none
      | some e =>
        if e + 1 = cs.length then none
        else if e + 1 = i then
          -- host = hostPort[1:e], j = 1, k = e+1
          if (firstIdxOf '[' (cs.drop 1)).isSome then none
          else if (firstIdxOf ']' (cs.drop (e + 1))).isSome then none
          else some (⟨(cs.drop 1).take (e - 1)⟩, ⟨cs.drop (i + 1)⟩)
        else none
    else
      let host := cs.take i
      if (firstIdxOf ':' host).isSome then none
      else if (firstIdxOf '[' cs).isSome then none
      else if (firstIdxOf ']' cs).isSome then none
      else some (⟨host⟩, ⟨cs.drop (i + 1)⟩)

/-- Go `net.JoinHostPort`. -/
def joinHostPort (host port : String) : String :=
  if (firstIdxOf ':' host.data).isSome then "[" ++ host ++ "]:" ++ port
  else host ++ ":" ++ port

/-- The CONNECT target computation of `HTTPProxyServer.handleConnect`
(`internal/proxy/http_proxy.go`): `target := r.Host`; if
`net.SplitHostPort(target)` fails, `target = net.JoinHostPort(target, "443")`. -/
def connectTarget (host : String) : String :=
  match splitHostPort host with
  | some _ => host
  | none => joinHostPort host "443"

/-! ## SOCKS5 zero-address replies (`internal/socks5/reply.go`)

`newZeroAddrReply` builds a `txsocks5.Reply`; `Reply.WriteTo` emits
`ver rep rsv atyp addr port`, with `ver = 0x05` and `rsv = 0x00` fixed by
`txsocks5.NewReply`.  `net.IPv6zero` is sixteen zero bytes.
-/

/-- A SOCKS5 reply frame as built by `txsocks5.NewReply`: version and reserved
bytes are fixed; `atyp`, the bound address bytes and the 2-byte big-endian
port vary. -/
structure S5Reply where
  ver : Nat
  rep : Nat
  rsv : Nat
  atyp : Nat
  bndAddr : List Nat
  bndPort : List Nat
  deriving Repr, DecidableEq

/-- Constants of `txsocks5` used by the repository. -/
def atypIPv4 : Nat := 0x01
def atypDomain : Nat := 0x03
def atypIPv6 : Nat := 0x04
def repSuccess : Nat := 0x00
def repConnectionRefused : Nat := 0x05
def repCommandNotSupported : Nat := 0x07

/-- Constructor `txsocks5.NewReply`: fills in `ver = 0x05` and `rsv = 0x00`. -/
def newReply (rep atyp : Nat) (addr port : List Nat) : S5Reply :=
  ⟨0x05, rep, 0x00, atyp, addr, port⟩

/-- Function `newZeroAddrReply` from `internal/socks5/reply.go`: an IPv6 zero address
for requests whose atyp was IPv6, otherwise an IPv4 zero address, both with
port zero. -/
def newZeroAddrReply (rep atyp : Nat) : S5Reply :=
  if atyp = atypIPv6 then
    newReply rep atypIPv6 (List.replicate 16 0) [0x00, 0x00]
  else
    newReply rep atypIPv4 [0x00, 0x00, 0x00, 0x00] [0x00, 0x00]

/-- Function `WriteCommandNotSupportedReply` from `internal/socks5/reply.go`. -/
def writeCommandNotSupportedReply (atyp : Nat) : S5Reply :=
  newZeroAddrReply repCommandNotSupported atyp

/-- Function `WriteConnectionRefusedReply` from `internal/socks5/reply.go`. -/
def writeConnectionRefusedReply (atyp : Nat) : S5Reply :=
  newZeroAddrReply repConnectionRefused atyp

/-! ## Dialer network gates (`internal/dialer/*.go`)

Each dialer's `DialContext` begins with a network check:

* `HTTPProxyDialer.DialContext` (`http_proxy.go`): `if network != "tcp"` fail.
* `SOCKS5ProxyDialer.DialContext` (`socks5_proxy.go`):
  `if !strings.HasPrefix(network, "tcp")` fail.
* `SSHProxyDialer.DialContext` (`ssh_proxy.go`):
  `if !strings.HasPrefix(network, "tcp")` fail.
* the direct dialer (`direct.go`) performs no network check at all and passes
  the network through to `net.Dialer` (after substituting the default network
  for exactly `"tcp"`).
-/

/-- Go `strings.HasPrefix(network, "tcp")`. -/
def hasTCPHead (network : String) : Bool :=
  match network.data with
  | 't' :: 'c' :: 'p' :: _ => true
  | _ => false

/-- The network gate of `HTTPProxyDialer.DialContext`: only exactly `"tcp"`
passes. -/
def httpProxyNetworkOk (network : String) : Bool :=
  network = "tcp"

/-- The network gate of `SOCKS5ProxyDialer.DialContext`. -/
def socks5ProxyNetworkOk (network : String) : Bool :=
  hasTCPHead network

/-- The network gate of `SSHProxyDialer.DialContext` (and of
`ssh.Client.DialContext`). -/
def sshProxyNetworkOk (network : String) : Bool :=
  hasTCPHead network

/-- The direct dialer (`internal/dialer/direct.go`) has no network gate: every
network string is handed to `net.Dialer.DialContext`. -/
def directNetworkOk (_network : String) : Bool :=
  true

/-! ## SOCKS5 server handler and HTTP CONNECT handler (`internal/proxy`)

`SOCKS5Server.handleConn` and `HTTPProxyServer.handleConnect` are modelled as
functions from an environment — the outcome of every read, write and dial the
handler performs — to a trace: the list of frames that reached the wire,
whether the byte bridge was entered, and whether the handler returned an
error.  A write that fails leaves no frame in the trace.
-/

/-- Frames a SOCKS5 handler can emit: the method-selection reply of the
negotiation, or a SOCKS5 reply frame. -/
inductive S5Frame where
  | methodSel (m : Nat)
  | reply (r : S5Reply)
  deriving Repr, DecidableEq

/-- Method constants (`txsocks5.MethodNone`, `0xFF` for no acceptable
methods). -/
def methodNone : Nat := 0x00
def methodNoAcceptable : Nat := 0xFF

/-- Function `containsMethod` from `internal/socks5/server.go`. -/
def containsMethod : List Nat → Nat → Bool
  | [], _ => false
  | m :: ms, want => if m = want then true else containsMethod ms want

/-- A parsed SOCKS5 request (`txsocks5.Request`) as used by `handleConn`:
command, address type, and the string form of the destination. -/
structure S5Request where
  cmd : Nat
  atyp : Nat
  address : String
  deriving Repr, DecidableEq

/-- Constant `txsocks5.CmdConnect`. -/
def cmdConnect : Nat := 0x01

/-- The reply built by `WriteSuccessReply` (`internal/socks5/reply.go`) once
the upstream's local address has been parsed into `(atyp, addr, port)` (with
the domain length byte already stripped, as the code does). -/
def successReply (atyp : Nat) (addr port : List Nat) : S5Reply :=
  newReply repSuccess atyp addr port

/-- Environment for one run of `SOCKS5Server.handleConn`: the outcome of each
read (`none` = read error), each write (`false` = write error), the dial
(`none` = dial error), the parse of the upstream's local address, and the
bridge. -/
structure S5HandleEnv where
  greeting : Option (List Nat)
  methodReplyOk : Bool
  noAcceptReplyOk : Bool
  request : Option S5Request
  dialResult : Option Nat
  localAddrParseOk : Bool
  localAtyp : Nat
  localAddr : List Nat
  localPort : List Nat
  successReplyOk : Bool
  cmdNotSupReplyOk : Bool
  refusedReplyOk : Bool
  bridgeOk : Bool
  deriving Repr, DecidableEq

/-- The observable outcome of one `handleConn` run: frames that reached the
wire in order, whether `CopyBidirectional` was entered, and whether the
handler returned an error.  The connection is always closed on return
(`defer conn.Close()`). -/
structure S5Trace where
  frames : List S5Frame
  bridged : Bool
  errored : Bool
  deriving Repr, DecidableEq

/-- Handler `SOCKS5Server.handleConn` from `internal/proxy/socks5_server.go`, composed
with `ServerNegotiate(conn, Auth{})` (the no-auth branch of
`internal/socks5/server.go`), `ServerReadRequest`, and the reply writers of
`internal/socks5/reply.go`. -/
def socks5HandleConn (env : S5HandleEnv) : S5Trace :=
  -- ServerNegotiateNoAuth: read greeting, require method 0x00, reply 0x05 0x00.
  match env.greeting with
  | none => ⟨[], false, true⟩
  | some methods =>
    if ¬ containsMethod methods methodNone then
      -- writeNoAcceptableMethods; its write error is ignored.
      ⟨if env.noAcceptReplyOk then [.methodSel methodNoAcceptable] else [], false, true⟩
    else if ¬ env.methodReplyOk then ⟨[], false, true⟩
    else
      let f0 : List S5Frame := [.methodSel methodNone]
      match env.request with
      | none => ⟨f0, false, true⟩
      | some req =>
        if req.cmd ≠ cmdConnect then
          ⟨f0 ++ (if env.cmdNotSupReplyOk
                  then [.reply (writeCommandNotSupportedReply req.atyp)] else []),
           false, true⟩
        else
          match env.dialResult with
          | none =>
            ⟨f0 ++ (if env.refusedReplyOk
                    then [.reply (writeConnectionRefusedReply req.atyp)] else []),
             false, true⟩
          | some _ =>
            if ¬ env.localAddrParseOk then ⟨f0, false, true⟩
            else if ¬ env.successReplyOk then ⟨f0, false, true⟩
            else
              ⟨f0 ++ [.reply (successReply env.localAtyp env.localAddr env.localPort)],
               true, ¬ env.bridgeOk⟩

/-- A frame counts as an error reply if it is the `0xFF` no-acceptable-methods
selection or a SOCKS5 reply with non-zero `rep`. -/
def isErrorFrame : S5Frame → Bool
  | .methodSel m => m = methodNoAcceptable
  | .reply r => r.rep ≠ repSuccess

/-- A frame counts as a success reply if it is a SOCKS5 reply with
`rep = 0x00`. -/
def isSuccessFrame : S5Frame → Bool
  | .methodSel _ => false
  | .reply r => r.rep = repSuccess

/-- HTTP status lines `handleConnect` can emit on the hijacked stream. -/
inductive HTTPFrame where
  | status (code : Nat)
  deriving Repr, DecidableEq

/-- Environment for one run of `HTTPProxyServer.handleConnect`: whether the
response writer supports hijacking, whether `Hijack` succeeds, and the dial
outcome.  The handler ignores write errors on the hijacked stream, so writes
are not in the environment. -/
structure HTTPConnectEnv where
  hijackSupported : Bool
  hijackOk : Bool
  dialResult : Option Nat
  deriving Repr, DecidableEq

/-- Handler `HTTPProxyServer.handleConnect` from `internal/proxy/http_proxy.go`:
hijack (500 on failure), dial the CONNECT target (502 + close on failure),
else `200 Connection Established` + `CopyBidirectional`. -/
def httpHandleConnect (env : HTTPConnectEnv) : List HTTPFrame × Bool :=
  if ¬ env.hijackSupported then ([.status 500], false)
  else if ¬ env.hijackOk then ([.status 500], false)
  else
    match env.dialResult with
    | none => ([.status 502], false)
    | some _ => ([.status 200], true)

/-! ## Upstream URL parsing and dialer construction (`internal/dialer/dialer.go`)

`New` receives the flag value already run through Go's `url.Parse`; it is
modelled here over the parsed URL record.  `u.User.Username()` and the
password default to `""` when absent, which is how the code consumes them.
The scheme-specific constructors embedded are `NewHTTPProxyDialer`
(nil/empty-host/scheme checks), `NewSOCKS5ProxyDialer` (empty-address check)
and `NewSSHProxyDialer` (`internal/dialer/ssh_proxy.go`: address, username,
key-file load, password-or-key checks).  Reading and parsing the SSH key file
is I/O and is passed in as an oracle `kp : String → Option Unit` (`some` =
the file loaded and parsed, `none` = failure).
-/

/-- ASCII lowercasing of one character, as Go's `strings.ToLower` acts on the
ASCII scheme strings `New` deals with. -/
def lowerChar (c : Char) : Char :=
  if 'A' ≤ c ∧ c ≤ 'Z' then Char.ofNat (c.toNat + 32) else c

/-- Go `strings.ToLower` restricted to ASCII input (scheme strings). -/
def asciiToLower (s : String) : String :=
  ⟨s.data.map lowerChar⟩

/-- A URL as produced by Go's `url.Parse`, restricted to the components `New`
reads: scheme, hostname, optional port, userinfo (username/password, `""`
when absent) and path. -/
structure GoURL where
  scheme : String
  hostname : String
  port : Option String
  user : String
  pass : String
  path : String
  deriving Repr, DecidableEq

/-- Go `u.Host` (`host:port` or `[v6]:port` or bare host). -/
def urlHost (u : GoURL) : String :=
  match u.port with
  | some p => joinHostPort u.hostname p
  | none =>
    if (firstIdxOf ':' u.hostname.data).isSome then "[" ++ u.hostname ++ "]"
    else u.hostname

/-- The dialers `New` can construct, with the configuration each constructor
retains. -/
inductive DialerKind where
  | direct
  | httpProxy (proxyURL : GoURL) (user pass : String)
  | socks5 (proxyAddr user pass : String)
  | ssh (sshAddr user pass : String) (hasSigner : Bool)
  deriving Repr, DecidableEq

/-- Function `defaultPortForScheme` from `internal/dialer/dialer.go`. -/
def defaultPortForScheme (scheme : String) : String :=
  if scheme = "http" then "80"
  else if scheme = "https" then "443"
  else if scheme = "socks5" then "1080"
  else if scheme = "ssh" then "22"
  else ""

/-- Constructor `NewHTTPProxyDialer` (`internal/dialer/http_upstream.go` era with
validation): rejects a nil URL, an empty hostname, and a non-http(s)
scheme. -/
def newHTTPProxyDialer (u : GoURL) (user pass : String) : Except String DialerKind :=
  if u.hostname = "" then .error "http proxy dialer: invalid proxy host"
  else if u.scheme ≠ "http" ∧ u.scheme ≠ "https" then
    .error "http proxy dialer: unsupported scheme"
  else .ok (.httpProxy u user pass)

/-- Constructor `NewSOCKS5ProxyDialer` (`internal/dialer/socks5_proxy.go`): rejects an
empty proxy address. -/
def newSOCKS5ProxyDialer (proxyAddr user pass : String) : Except String DialerKind :=
  if proxyAddr = "" then .error "socks5 proxy dialer: missing proxy address"
  else .ok (.socks5 proxyAddr user pass)

/-- Constructor `NewSSHProxyDialer` (`internal/dialer/ssh_proxy.go`): rejects an empty
address and an empty username; loads the key file from `cfg.SSHKeyPath` when
set (failure is an error); then requires a password or a signer. -/
def newSSHProxyDialer (kp : String → Option Unit) (sshKeyPath : String)
    (sshAddr user pass : String) : Except String DialerKind :=
  if sshAddr = "" then .error "ssh dialer: missing ssh address"
  else if user = "" then .error "ssh dialer: missing username"
  else if sshKeyPath ≠ "" then
    match kp sshKeyPath with
    | none => .error "ssh dialer: reading or parsing key file"
    | some _ => .ok (.ssh sshAddr user pass true)
  else if pass = "" then .error "ssh dialer: missing password or key"
  else .ok (.ssh sshAddr user pass false)

/-- Function `New` from `internal/dialer/dialer.go`: lowercases the scheme, rejects a
path other than `""` or `"/"`, rejects a missing or unknown scheme,
applies the scheme's default port when the hostname is non-empty and the
port absent, and dispatches to the scheme's constructor. -/
def newDialer (kp : String → Option Unit) (sshKeyPath : String) (u0 : GoURL) :
    Except String DialerKind :=
  let s := asciiToLower u0.scheme
  let u : GoURL := { u0 with scheme := s }
  if ¬ (u.path = "" ∨ u.path = "/") then .error "invalid URL: path should be empty"
  else if s = "" then .error "invalid url: missing scheme"
  else if s = "direct" then .ok .direct
  else if s = "http" ∨ s = "https" ∨ s = "socks5" ∨ s = "ssh" then
    let u1 : GoURL :=
      if u.hostname ≠ "" ∧ u.port = none
      then { u with port := some (defaultPortForScheme s) } else u
    if s = "http" ∨ s = "https" then newHTTPProxyDialer u1 u1.user u1.pass
    else if s = "socks5" then newSOCKS5ProxyDialer (urlHost u1) u1.user u1.pass
    else newSSHProxyDialer kp sshKeyPath (urlHost u1) u1.user u1.pass
  else .error "invalid url scheme"

/-- Returns `true` iff the constructor returned an error. -/
def isDialerErr : Except String DialerKind → Bool
  | .error _ => true
  | .ok _ => false

/-! ## SSH channel dial with invalidate-and-retry
(`internal/dialer/ssh_proxy.go` `DialContext`, `internal/ssh/client.go`
`DialContext`)

The channel-open error classes are `*ssh.OpenChannelError` (peer-reported:
transport healthy, destination unreachable) versus anything else
(transport-level).  The environment fixes the outcome of each of the at most
two `getClient` calls and two channel-open attempts; the trace records the
returned value and how often the dialer invalidated the cached client and
called `getClient`.
-/

/-- An error from opening a `direct-tcpip` channel, tagged with an opaque
code so distinct errors can be told apart. -/
inductive ChanErr where
  | openChannel (code : Nat)
  | transport (code : Nat)
  deriving Repr, DecidableEq

/-- The errors `SSHProxyDialer.DialContext` can return: the unsupported
network error, an error from `getClient` passed through unchanged, a channel
error wrapped by `fmt.Errorf("ssh upstream dial %s: %w", address, err)`, or a
channel error returned raw (`return nil, err`). -/
inductive SSHDialErr where
  | network (network address : String)
  | getClient (code : Nat)
  | wrapped (address : String) (e : ChanErr)
  | raw (e : ChanErr)
  deriving Repr, DecidableEq

instance {ε α : Type} [DecidableEq ε] [DecidableEq α] : DecidableEq (Except ε α)
  | .error e, .error f =>
    if h : e = f then .isTrue (congrArg _ h)
    else .isFalse fun hc => h (Except.error.inj hc)
  | .error _, .ok _ => .isFalse fun hc => Except.noConfusion hc
  | .ok _, .error _ => .isFalse fun hc => Except.noConfusion hc
  | .ok a, .ok b =>
    if h : a = b then .isTrue (congrArg _ h)
    else .isFalse fun hc => h (Except.ok.inj hc)

/-- Environment for one `DialContext` call: outcomes of the first `getClient`,
the first channel open, the post-invalidation `getClient`, and the retried
channel open. -/
structure SSHDialEnv where
  get1 : Except Nat Nat
  chan1 : Except ChanErr Nat
  get2 : Except Nat Nat
  chan2 : Except ChanErr Nat
  deriving Repr, DecidableEq

/-- Trace of one `DialContext` call. -/
structure SSHDialTrace where
  result : Except SSHDialErr Nat
  invalidations : Nat
  getClientCalls : Nat
  chanOpenAttempts : Nat
  deriving Repr, DecidableEq

/-- Method `SSHProxyDialer.DialContext` from `internal/dialer/ssh_proxy.go` (the same
control flow as `ssh.Client.DialContext` in `internal/ssh/client.go`):
network gate; `getClient`; channel open; on `OpenChannelError` return the
wrapped error without invalidating; on any other error invalidate, re-obtain
the client once (returning the ORIGINAL error raw if that fails), retry the
channel open, and return the retry's error wrapped if the retry fails. -/
def sshDialContext (network address : String) (env : SSHDialEnv) : SSHDialTrace :=
  if ¬ hasTCPHead network then
    ⟨.error (.network network address), 0, 0, 0⟩
  else
    match env.get1 with
    | .error e => ⟨.error (.getClient e), 0, 1, 0⟩
    | .ok _ =>
      match env.chan1 with
      | .ok conn => ⟨.ok conn, 0, 1, 1⟩
      | .error (.openChannel c) =>
        ⟨.error (.wrapped address (.openChannel c)), 0, 1, 1⟩
      | .error (.transport c) =>
        match env.get2 with
        | .error _ => ⟨.error (.raw (.transport c)), 1, 2, 1⟩
        | .ok _ =>
          match env.chan2 with
          | .ok conn => ⟨.ok conn, 1, 2, 2⟩
          | .error e2 => ⟨.error (.wrapped address e2), 1, 2, 2⟩

/-! ## Transport creation and caching (`internal/ssh/client.go`
`newTransport` and the singleflight body of `getTransport`)

`newTransport` dials TCP, builds auth methods, and runs the SSH handshake
(`ssh.NewClientConn` = key exchange + user authentication); on handshake
failure it closes the socket.  The singleflight function re-checks the cache
and stores the client only after `newTransport` returned successfully.
-/

/-- Errors of `newTransport`. -/
inductive TransportErr where
  | dial (code : Nat)
  | auth
  | handshake (code : Nat)
  deriving Repr, DecidableEq

/-- Environment for one `newTransport` run: the TCP dial outcome (socket id),
whether `AuthMethods()` succeeds, and the handshake outcome (client id). -/
structure NewTransportEnv where
  dial : Except Nat Nat
  authOk : Bool
  handshake : Except Nat Nat
  deriving Repr, DecidableEq

/-- Result of `newTransport`: the returned client or error, which socket was
opened (if any), and which sockets were closed before returning. -/
structure NewTransportResult where
  result : Except TransportErr Nat
  socketOpened : Option Nat
  socketsClosed : List Nat
  deriving Repr, DecidableEq

/-- Method `Client.newTransport` from `internal/ssh/client.go`.  (On the
`AuthMethods` error path the code returns without closing the socket; that
path is unreachable because `NewClient` validates the config, but it is kept
faithful here.) -/
def newTransport (env : NewTransportEnv) : NewTransportResult :=
  match env.dial with
  | .error c => ⟨.error (.dial c), none, []⟩
  | .ok sock =>
    if ¬ env.authOk then ⟨.error .auth, some sock, []⟩
    else
      match env.handshake with
      | .error c => ⟨.error (.handshake c), some sock, [sock]⟩
      | .ok client => ⟨.ok client, some sock, []⟩

/-- The singleflight function body of `Client.getTransport`: re-check the
cache, otherwise run `newTransport` and store the client only on success.
Returns (result, new cache, sockets closed). -/
def sfConnect (cached : Option Nat) (env : NewTransportEnv) :
    Except TransportErr Nat × Option Nat × List Nat :=
  match cached with
  | some c => (.ok c, some c, [])
  | none =>
    let r := newTransport env
    match r.result with
    | .error e => (.error e, none, r.socketsClosed)
    | .ok client => (.ok client, some client, r.socketsClosed)

/-! ## Single-flighted concurrent connect (`getClient` / `getTransport` with
`singleflight.Group.DoChan`)

The concurrent behaviour is modelled as a step relation on a pool state.
`arrive i` is caller `i` executing `getClient` up to its suspension point:
it reads the cache; on a miss it submits to the singleflight key
`"connect"`, which starts the creation function — with a background
cancellation token, `handshakes` counting its `dialSSH` runs — only if no
execution is in flight, and otherwise joins the waiters.  `cancelWait i` is
caller `i`'s own context firing: per `select { case <-ctx.Done() ... }` the
caller stops waiting; nothing else changes.  `complete` is the in-flight
creation finishing and fanning out its result. -/

/-- The cancellation token a computation runs under. -/
inductive Ctx where
  | background
  | caller (id : Nat)
  deriving Repr, DecidableEq

/-- Pool state: the cached client, whether a singleflight execution for key
`"connect"` is in flight and under which context it runs, how many SSH
handshakes (`dialSSH` runs) have started, and who is waiting. -/
structure SFState where
  client : Option Nat
  flight : Bool
  flightCtx : Option Ctx
  handshakes : Nat
  waiters : List Nat
  deriving Repr, DecidableEq

/-- Events of the single-flight model. -/
inductive SFStep where
  | arrive (i : Nat)
  | cancelWait (i : Nat)
  | complete (res : Except Unit Nat)
  deriving Repr, DecidableEq

/-- One step of the pool. -/
def sfStep (s : SFState) : SFStep → SFState
  | .arrive i =>
    match s.client with
    | some _ => s
    | none =>
      if s.flight then { s with waiters := s.waiters ++ [i] }
      else
        { s with flight := true, flightCtx := some .background,
                 handshakes := s.handshakes + 1, waiters := [i] }
  | .cancelWait i => { s with waiters := s.waiters.erase i }
  | .complete res =>
    { s with flight := false, flightCtx := none, waiters := [],
             client := match res with | .ok c => some c | .error _ => s.client }

/-- Run a list of steps from a state. -/
def sfRun (s : SFState) : List SFStep → SFState
  | [] => s
  | st :: rest => sfRun (sfStep s st) rest

/-- The initial pool state: no cached client, nothing in flight. -/
def sfInit : SFState := ⟨none, false, none, 0, []⟩

/-- Returns `true` for steps that are not a completion of the in-flight connect. -/
def notComplete : SFStep → Bool
  | .complete _ => false
  | _ => true

/-- Returns `true` for arrival steps. -/
def isArrive : SFStep → Bool
  | .arrive _ => true
  | _ => false

/-! ## Known-hosts trust-on-first-use (`internal/ssh/knownhosts.go`
`NewHostKeyCallback`, `internal/dialer/ssh_proxy.go` `newHostKeyCallback`)

The known-hosts file is modelled as the list of its `(pattern, key)` lines.
The callback obtained from `golang.org/x/crypto/ssh/knownhosts.New` is
modelled by `khCheck`: it normalizes the queried address the same way
`knownhosts.Normalize` does, returns nil when the key matches a line for the
host, and otherwise a `KeyError` whose `Want` lists the keys on file for the
host (empty for an unknown host).  The repository's wrapper adds TOFU on top.
-/

/-- Function `knownhosts.Normalize`: strip a `:22` port, keep any other port in
bracketed form, bracket bare IPv6 literals. -/
def khNormalize (address : String) : String :=
  let hp := match splitHostPort address with
            | some (h, p) => (h, p)
            | none => (address, "22")
  if hp.2 ≠ "22" then "[" ++ hp.1 ++ "]:" ++ hp.2
  else if (firstIdxOf ':' hp.1.data).isSome ∧ hp.1.data.head? ≠ some '[' then
    "[" ++ hp.1 ++ "]"
  else hp.1

/-- The keys on file for a normalized host pattern. -/
def khKeysFor (file : List (String × Nat)) (pattern : String) : List Nat :=
  (file.filter (fun e => e.1 = pattern)).map (fun e => e.2)

/-- Result of the base `knownhosts` lookup: nil, or a `KeyError` carrying the
`Want` list. -/
inductive KHResult where
  | ok
  | keyError (want : List Nat)
  deriving Repr, DecidableEq

/-- The callback produced by `knownhosts.New(path)`, over the file
contents. -/
def khCheck (file : List (String × Nat)) (hostname : String) (key : Nat) : KHResult :=
  let keys := khKeysFor file (khNormalize hostname)
  if keys.contains key then .ok else .keyError keys

/-- Errors of the TOFU callback. -/
inductive HKErr where
  | mismatch (hostname : String)
  | writeFailed
  deriving Repr, DecidableEq

/-- The TOFU callback from `NewHostKeyCallback` in
`internal/ssh/knownhosts.go` (identical logic in `newHostKeyCallback` of
`internal/dialer/ssh_proxy.go`): accept on a clean lookup; reject as a
possible MITM when `Want` is non-empty; otherwise append
`knownhosts.Line([Normalize(hostname)], key)` to the file (TOFU), with the
append's file I/O outcome given by `writeOk`.  Returns the callback result
and the file contents afterwards. -/
def tofuCallback (file : List (String × Nat)) (writeOk : Bool)
    (hostname : String) (key : Nat) :
    Except HKErr Unit × List (String × Nat) :=
  match khCheck file hostname key with
  | .ok => (.ok (), file)
  | .keyError want =>
    if 0 < want.length then (.error (.mismatch hostname), file)
    else if ¬ writeOk then (.error .writeFailed, file)
    else (.ok (), file ++ [(khNormalize hostname, key)])

/-! ## Default upstream (`main.go`, `defaultUpstream`) -/

/-- Function `defaultUpstream` from `main.go`, with the process environment passed
explicitly: `ALL_PROXY` if non-empty, else `all_proxy` if non-empty, else
`"direct://"`. -/
def defaultUpstream (getenv : String → String) : String :=
  if getenv "ALL_PROXY" ≠ "" then getenv "ALL_PROXY"
  else if getenv "all_proxy" ≠ "" then getenv "all_proxy"
  else "direct://"

end Conduit

namespace Conduit

/-! ## Helper lemmas on the address helpers -/

lemma lastIdxOf_eq_none {c : Char} {l : List Char} (h : c ∉ l) :
    lastIdxOf c l = none := by
  induction l with
  | nil => rfl
  | cons x xs ih =>
    simp only [List.mem_cons, not_or] at h
    have hx : ¬x = c := fun hx => h.1 hx.symm
    simp [lastIdxOf, ih h.2, hx]

lemma firstIdxOf_eq_none {c : Char} {l : List Char} (h : c ∉ l) :
    firstIdxOf c l = none := by
  induction l with
  | nil => rfl
  | cons x xs ih =>
    simp only [List.mem_cons, not_or] at h
    have hx : ¬x = c := fun hx => h.1 hx.symm
    simp [firstIdxOf, hx, ih h.2]

lemma lastIdxOf_append_cons {c : Char} (b : List Char) {p : List Char}
    (hp : c ∉ p) : lastIdxOf c (b ++ c :: p) = some b.length := by
  induction b with
  | nil => simp [lastIdxOf, lastIdxOf_eq_none hp]
  | cons x xs ih => simp [lastIdxOf, ih]

lemma newZeroAddrReply_rep (rep atyp : Nat) : (newZeroAddrReply rep atyp).rep = rep := by
  unfold newZeroAddrReply newReply
  split <;> rfl

lemma joinHostPort_ne_empty (h p : String) : joinHostPort h p ≠ "" := by
  unfold joinHostPort
  split <;> intro hc <;>
    · have := congrArg String.data hc
      simp [String.data_append] at this

lemma khKeysFor_append (a b : List (String × Nat)) (p : String) :
    khKeysFor (a ++ b) p = khKeysFor a p ++ khKeysFor b p := by
  simp [khKeysFor, List.filter_append]

lemma sfRun_preserve (steps : List SFStep) (s : SFState)
    (hnc : ∀ st ∈ steps, notComplete st = true)
    (hc : s.client = none) (hf : s.flight = true)
    (hx : s.flightCtx = some .background) (hh : s.handshakes = 1) :
    (sfRun s steps).client = none ∧ (sfRun s steps).flight = true ∧
    (sfRun s steps).flightCtx = some .background ∧
    (sfRun s steps).handshakes = 1 := by
  induction steps generalizing s with
  | nil => exact ⟨hc, hf, hx, hh⟩
  | cons st rest ih =>
    have hst := hnc st (List.mem_cons_self _ _)
    have hrest : ∀ x ∈ rest, notComplete x = true :=
      fun x hx' => hnc x (List.mem_cons_of_mem _ hx')
    cases st with
    | arrive i =>
      have hstep : sfStep s (.arrive i) = { s with waiters := s.waiters ++ [i] } := by
        simp [sfStep, hc, hf]
      simp only [sfRun, hstep]
      exact ih _ hrest hc hf hx hh
    | cancelWait i =>
      simp only [sfRun]
      exact ih _ hrest hc hf hx hh
    | complete r => exact absurd hst (by simp [notComplete])

/-! ## Theorems -/

/-- C5: every SOCKS5 zero-address reply the server emits (command-not-supported
and connection-refused) carries the IPv6 zero address (atyp 0x04, 16 zero
bytes) iff the request's atyp was IPv6, and otherwise the IPv4 zero address
(atyp 0x01, 4 zero bytes), in both cases with port zero. -/
theorem c5_zero_addr_reply_atyp (rep atyp : Nat) :
    ((newZeroAddrReply rep atyp =
        ⟨0x05, rep, 0x00, atypIPv6, List.replicate 16 0, [0x00, 0x00]⟩) ↔ atyp = atypIPv6) ∧
    (atyp ≠ atypIPv6 →
      newZeroAddrReply rep atyp =
        ⟨0x05, rep, 0x00, atypIPv4, [0, 0, 0, 0], [0x00, 0x00]⟩) ∧
    writeCommandNotSupportedReply atyp = newZeroAddrReply repCommandNotSupported atyp ∧
    writeConnectionRefusedReply atyp = newZeroAddrReply repConnectionRefused atyp := by
  refine ⟨?_, ?_, rfl, rfl⟩
  · constructor
    · intro h
      by_contra hne
      simp only [newZeroAddrReply, if_neg hne, newReply] at h
      exact absurd (congrArg S5Reply.atyp h) (by simp [atypIPv4, atypIPv6])
    · intro h
      simp [newZeroAddrReply, h, newReply]
  · intro h
    simp [newZeroAddrReply, h, newReply]

/-- C10: with no `--upstream` flag, the default upstream is `ALL_PROXY` when
that variable is non-empty, otherwise `all_proxy` when non-empty, otherwise
the literal `"direct://"`; in particular `ALL_PROXY` wins when both are set. -/
theorem c10_default_upstream (getenv : String → String) :
    (getenv "ALL_PROXY" ≠ "" → defaultUpstream getenv = getenv "ALL_PROXY") ∧
    (getenv "ALL_PROXY" = "" → getenv "all_proxy" ≠ "" →
      defaultUpstream getenv = getenv "all_proxy") ∧
    (getenv "ALL_PROXY" = "" → getenv "all_proxy" = "" →
      defaultUpstream getenv = "direct://") := by
  refine ⟨fun h => ?_, fun h1 h2 => ?_, fun h1 h2 => ?_⟩
  · simp [defaultUpstream, h]
  · simp [defaultUpstream, h1, h2]
  · simp [defaultUpstream, h1, h2]

/-- C1 counterexample: the claim says the original (first) channel-open error
is returned when the retried channel open also fails; at a concrete input
where the first attempt fails with transport error 1 and the retry with
transport error 2, `DialContext` returns the error wrapping attempt 2, and
neither the raw nor the wrapped form of the original error 1. -/
theorem c1_counterexample :
    (sshDialContext "tcp" "h:1"
        ⟨.ok 1, .error (.transport 1), .ok 2, .error (.transport 2)⟩).result =
      .error (.wrapped "h:1" (.transport 2)) ∧
    (sshDialContext "tcp" "h:1"
        ⟨.ok 1, .error (.transport 1), .ok 2, .error (.transport 2)⟩).result ≠
      .error (.raw (.transport 1)) ∧
    (sshDialContext "tcp" "h:1"
        ⟨.ok 1, .error (.transport 1), .ok 2, .error (.transport 2)⟩).result ≠
      .error (.wrapped "h:1" (.transport 1)) := by
  exact ⟨rfl, by decide, by decide⟩

/-- C1 (amended): on a transport-level channel-open error the dialer
invalidates the cached client and obtains a fresh client exactly once, then
retries the channel open; if obtaining the fresh client fails the ORIGINAL
error is returned (raw); if the retried channel open fails, the SECOND
attempt's error is returned (wrapped with the dial address).  A peer-reported
`OpenChannelError` is returned without invalidating or retrying. -/
theorem c1_transport_error_retry (address : String) (env : SSHDialEnv) :
    (∀ g c, env.get1 = .ok g → env.chan1 = .error (.transport c) →
      (sshDialContext "tcp" address env).invalidations = 1 ∧
      (sshDialContext "tcp" address env).getClientCalls = 2 ∧
      (∀ e, env.get2 = .error e →
        (sshDialContext "tcp" address env).result = .error (.raw (.transport c))) ∧
      (∀ g2 conn, env.get2 = .ok g2 → env.chan2 = .ok conn →
        (sshDialContext "tcp" address env).result = .ok conn) ∧
      (∀ g2 e2, env.get2 = .ok g2 → env.chan2 = .error e2 →
        (sshDialContext "tcp" address env).result = .error (.wrapped address e2))) ∧
    (∀ g c, env.get1 = .ok g → env.chan1 = .error (.openChannel c) →
      (sshDialContext "tcp" address env).invalidations = 0 ∧
      (sshDialContext "tcp" address env).getClientCalls = 1 ∧
      (sshDialContext "tcp" address env).result =
        .error (.wrapped address (.openChannel c))) := by
  obtain ⟨g1, c1, g2, c2⟩ := env
  have hgate : hasTCPHead "tcp" = true := rfl
  constructor
  · intro g c hg hc
    have hg' : g1 = .ok g := hg
    have hc' : c1 = .error (.transport c) := hc
    subst hg'
    subst hc'
    refine ⟨?_, ?_, ?_, ?_, ?_⟩
    · cases g2 with
      | error e => simp [sshDialContext, hgate]
      | ok v => cases c2 <;> simp [sshDialContext, hgate]
    · cases g2 with
      | error e => simp [sshDialContext, hgate]
      | ok v => cases c2 <;> simp [sshDialContext, hgate]
    · intro e he
      have he' : g2 = .error e := he
      subst he'
      simp [sshDialContext, hgate]
    · intro v conn hv hconn
      have hv' : g2 = .ok v := hv
      have hconn' : c2 = .ok conn := hconn
      subst hv'
      subst hconn'
      simp [sshDialContext, hgate]
    · intro v e2 hv he2
      have hv' : g2 = .ok v := hv
      have he2' : c2 = .error e2 := he2
      subst hv'
      subst he2'
      simp [sshDialContext, hgate]
  · intro g c hg hc
    have hg' : g1 = .ok g := hg
    have hc' : c1 = .error (.openChannel c) := hc
    subst hg'
    subst hc'
    exact ⟨by simp [sshDialContext, hgate], by simp [sshDialContext, hgate],
      by simp [sshDialContext, hgate]⟩

/-- Witness for C1's amended theorem at a concrete environment: first channel
open fails with transport error 3, the fresh client cannot be obtained, and
the original error 3 comes back raw. -/
theorem c1_transport_error_retry_witness :
    (sshDialContext "tcp" "db:5432"
        ⟨.ok 1, .error (.transport 3), .error 9, .ok 0⟩).result =
      .error (.raw (.transport 3)) :=
  ((c1_transport_error_retry "db:5432"
      ⟨.ok 1, .error (.transport 3), .error 9, .ok 0⟩).1 1 3 rfl rfl).2.2.1 9 rfl

/-- C4: a client is stored in the shared-transport cache only when it was
already there or the creation function returned successfully (TCP dial ok,
auth methods built, SSH key exchange + user auth completed); on a dial error
no socket was even opened and nothing is cached; on a handshake error nothing
is cached and the opened socket is closed. -/
theorem c4_cache_only_after_success (cached : Option Nat) (env : NewTransportEnv) :
    (∀ c, (sfConnect cached env).2.1 = some c →
      cached = some c ∨
        (env.authOk = true ∧ env.handshake = .ok c ∧ (∃ s, env.dial = .ok s) ∧
          (sfConnect cached env).1 = .ok c)) ∧
    (cached = none →
      (∀ e, env.dial = .error e →
        (sfConnect cached env).2.1 = none ∧ (newTransport env).socketOpened = none) ∧
      (∀ s e, env.dial = .ok s → env.authOk = true → env.handshake = .error e →
        (sfConnect cached env).2.1 = none ∧ s ∈ (sfConnect cached env).2.2)) := by
  obtain ⟨d, a, h⟩ := env
  constructor
  · intro c hc
    cases cached with
    | some c0 =>
      left
      have : c0 = c := by
        simpa [sfConnect] using hc
      rw [this]
    | none =>
      right
      cases d with
      | error e => simp [sfConnect, newTransport] at hc
      | ok s =>
        cases a with
        | false => simp [sfConnect, newTransport] at hc
        | true =>
          cases h with
          | error e => simp [sfConnect, newTransport] at hc
          | ok cl =>
            have : cl = c := by simpa [sfConnect, newTransport] using hc
            subst this
            exact ⟨rfl, rfl, ⟨s, rfl⟩, by simp [sfConnect, newTransport]⟩
  · intro hcached
    have hcached' : cached = none := hcached
    subst hcached'
    constructor
    · intro e he
      have he' : d = .error e := he
      subst he'
      exact ⟨by simp [sfConnect, newTransport], by simp [newTransport]⟩
    · intro s e hd ha he
      have hd' : d = .ok s := hd
      have ha' : a = true := ha
      have he' : h = .error e := he
      subst hd'
      subst ha'
      subst he'
      exact ⟨by simp [sfConnect, newTransport], by simp [sfConnect, newTransport]⟩

/-- Witness for C4 at a concrete environment: dial succeeds opening socket 3,
the handshake fails, nothing is cached and socket 3 is closed. -/
theorem c4_cache_only_after_success_witness :
    (sfConnect none ⟨.ok 3, true, .error 9⟩).2.1 = none ∧
    3 ∈ (sfConnect none ⟨.ok 3, true, .error 9⟩).2.2 :=
  ((c4_cache_only_after_success none ⟨.ok 3, true, .error 9⟩).2 rfl).2 3 9 rfl rfl rfl

/-- C2: starting with no cached transport, for any interleaving of `n ≥ 1`
caller arrivals and arbitrary waiter cancellations while the connect is in
flight (no completion yet), exactly one SSH handshake has been started, the
creation runs under the background context (not any caller's), the connect is
still in flight despite cancellations, and a `cancelWait` step never changes
the cache, the flight, its context, or the handshake count. -/
theorem c2_singleflight_one_handshake (steps : List SFStep)
    (hnc : ∀ st ∈ steps, notComplete st = true)
    (ha : ∃ st ∈ steps, isArrive st = true) :
    (sfRun sfInit steps).handshakes = 1 ∧
    (sfRun sfInit steps).flight = true ∧
    (sfRun sfInit steps).flightCtx = some .background ∧
    (∀ (s : SFState) (i : Nat),
      (sfStep s (.cancelWait i)).client = s.client ∧
      (sfStep s (.cancelWait i)).flight = s.flight ∧
      (sfStep s (.cancelWait i)).flightCtx = s.flightCtx ∧
      (sfStep s (.cancelWait i)).handshakes = s.handshakes) := by
  refine ⟨?_, ?_, ?_, fun s i => ⟨rfl, rfl, rfl, rfl⟩⟩ <;>
  · induction steps with
    | nil =>
      obtain ⟨st, hmem, _⟩ := ha
      exact absurd hmem (List.not_mem_nil st)
    | cons st rest ih =>
      have hst := hnc st (List.mem_cons_self _ _)
      have hrest : ∀ x ∈ rest, notComplete x = true :=
        fun x hx' => hnc x (List.mem_cons_of_mem _ hx')
      cases st with
      | arrive i =>
        have hstep : sfStep sfInit (.arrive i) =
            ⟨none, true, some .background, 1, [i]⟩ := by
          simp [sfStep, sfInit]
        have hpres := sfRun_preserve rest ⟨none, true, some .background, 1, [i]⟩
          hrest rfl rfl rfl rfl
        simp only [sfRun, hstep]
        tauto
      | cancelWait i =>
        have harest : ∃ x ∈ rest, isArrive x = true := by
          obtain ⟨st', hmem, harr⟩ := ha
          rcases List.mem_cons.mp hmem with h | h
          · rw [h] at harr
            exact absurd harr (by simp [isArrive])
          · exact ⟨st', h, harr⟩
        have : sfStep sfInit (.cancelWait i) = sfInit := rfl
        simp only [sfRun, this]
        exact ih hrest harest
      | complete r => exact absurd hst (by simp [notComplete])

/-- Witness for C2 at a concrete trace: two callers arrive and the first
cancels its wait; one handshake has started and the connect is still in
flight under the background context. -/
theorem c2_singleflight_one_handshake_witness :
    (sfRun sfInit [.arrive 0, .arrive 1, .cancelWait 0]).handshakes = 1 ∧
    (sfRun sfInit [.arrive 0, .arrive 1, .cancelWait 0]).flight = true :=
  have h := c2_singleflight_one_handshake [.arrive 0, .arrive 1, .cancelWait 0]
    (by decide) ⟨.arrive 0, by decide, rfl⟩
  ⟨h.1, h.2.1⟩

/-- C3: with a known-hosts file whose sole entry for host `H` carries key
`K₁`, a connection for `H` presenting `K₂ ≠ K₁` is rejected (and the file is
unchanged); with `H` absent from the file, the first presented key is
accepted and appended, and a later connection presenting that same key
succeeds. -/
theorem c3_tofu_host_keys (file : List (String × Nat)) (writeOk : Bool)
    (host : String) (k1 k2 k : Nat) :
    (khKeysFor file (khNormalize host) = [k1] → k2 ≠ k1 →
      (tofuCallback file writeOk host k2).1 = .error (.mismatch host) ∧
      (tofuCallback file writeOk host k2).2 = file) ∧
    (khKeysFor file (khNormalize host) = [] →
      (tofuCallback file true host k).1 = .ok () ∧
      (tofuCallback file true host k).2 = file ++ [(khNormalize host, k)] ∧
      (tofuCallback (file ++ [(khNormalize host, k)]) writeOk host k).1 = .ok ()) := by
  constructor
  · intro hkeys hne
    have hcontains : (khKeysFor file (khNormalize host)).contains k2 = false := by
      rw [hkeys]
      simp [hne]
    rw [tofuCallback.eq_def]
    simp only [khCheck, hcontains, hkeys]
    simp [hne]
  · intro hkeys
    have hcontains : (khKeysFor file (khNormalize host)).contains k = false := by
      rw [hkeys]
      rfl
    refine ⟨?_, ?_, ?_⟩
    · rw [tofuCallback.eq_def]
      simp only [khCheck, hcontains, hkeys]
      simp
    · rw [tofuCallback.eq_def]
      simp only [khCheck, hcontains, hkeys]
      simp
    · have hkeys2 : khKeysFor (file ++ [(khNormalize host, k)]) (khNormalize host) = [k] := by
        rw [khKeysFor_append, hkeys]
        simp [khKeysFor]
      rw [tofuCallback.eq_def]
      simp only [khCheck, hkeys2]
      simp

/-- Witness for C3 at a concrete file: `192.0.2.1` is on file with key 5, so
key 7 is rejected as a mismatch; an empty file accepts and persists key 5 for
`192.0.2.9:22` under its normalized name. -/
theorem c3_tofu_host_keys_witness :
    (tofuCallback [("192.0.2.1", 5)] true "192.0.2.1:22" 7).1 =
      .error (.mismatch "192.0.2.1:22") ∧
    (tofuCallback [] true "192.0.2.9:22" 5).2 = [("192.0.2.9", 5)] := by
  have h1 := (c3_tofu_host_keys [("192.0.2.1", 5)] true "192.0.2.1:22" 5 7 7).1
    (by decide) (by decide)
  have h2 := (c3_tofu_host_keys [] true "192.0.2.9:22" 5 5 5).2 (by decide)
  exact ⟨h1.1, h2.2.1.trans (by decide)⟩

/-- Witness for C10 at a concrete environment where both variables are set and
differ: `ALL_PROXY` wins. -/
theorem c10_default_upstream_witness :
    defaultUpstream
        (fun v => if v = "ALL_PROXY" then "socks5://a:1080" else
                  if v = "all_proxy" then "http://b:80" else "") =
      "socks5://a:1080" := by
  exact (c10_default_upstream _).1 (by decide)

/-- Witness for C5 at a concrete input: a command-not-supported reply to a
domain-atyp request carries the IPv4 zero address and port zero. -/
theorem c5_zero_addr_reply_atyp_witness :
    newZeroAddrReply repCommandNotSupported atypDomain =
      ⟨0x05, repCommandNotSupported, 0x00, atypIPv4, [0, 0, 0, 0], [0x00, 0x00]⟩ :=
  (c5_zero_addr_reply_atyp repCommandNotSupported atypDomain).2.1 (by decide)

/-- C7 counterexample: the claim says every dialer in the family accepts the
network `"tcp4"`, but `HTTPProxyDialer.DialContext` accepts only exactly
`"tcp"` and fails on `"tcp4"`. -/
theorem c7_counterexample : httpProxyNetworkOk "tcp4" = false := by decide

/-- C7 (amended): the SOCKS5 client and SSH dialers accept `"tcp"`, `"tcp4"`
and `"tcp6"` (any network prefixed by `"tcp"`) and fail fast on any network
not so prefixed; the HTTP CONNECT dialer accepts only exactly `"tcp"`,
failing fast on everything else including `"tcp4"` and `"tcp6"`; the direct
dialer applies no network check of its own. -/
theorem c7_network_gates (n : String) :
    ((n = "tcp" ∨ n = "tcp4" ∨ n = "tcp6") →
      socks5ProxyNetworkOk n = true ∧ sshProxyNetworkOk n = true) ∧
    (hasTCPHead n = false →
      socks5ProxyNetworkOk n = false ∧ sshProxyNetworkOk n = false ∧
        httpProxyNetworkOk n = false) ∧
    (httpProxyNetworkOk n = true ↔ n = "tcp") ∧
    directNetworkOk n = true := by
  refine ⟨?_, ?_, ?_, rfl⟩
  · rintro (rfl | rfl | rfl) <;> exact ⟨by decide, by decide⟩
  · intro h
    refine ⟨h, h, ?_⟩
    simp only [httpProxyNetworkOk, decide_eq_false_iff_not]
    rintro rfl
    exact absurd h (by decide)
  · simp [httpProxyNetworkOk]

/-- Witness for C7's amended theorem at the concrete network `"tcp6"`. -/
theorem c7_network_gates_witness :
    socks5ProxyNetworkOk "tcp6" = true ∧ sshProxyNetworkOk "tcp6" = true :=
  (c7_network_gates "tcp6").1 (Or.inr (Or.inr rfl))

/-- C6 counterexample: the claim says every accepted connection ends in
exactly one of the two outcomes ("never neither"), but when the SOCKS5
request read fails after a successful negotiation, `handleConn` closes the
connection having written no error reply and no success reply, without
entering the bridge — neither outcome. -/
theorem c6_counterexample :
    ((socks5HandleConn
        ⟨some [0], true, true, none, none, true, 1, [0, 0, 0, 0], [0, 0],
          true, true, true, true⟩).frames.all
        (fun f => !isErrorFrame f && !isSuccessFrame f) = true) ∧
    (socks5HandleConn
        ⟨some [0], true, true, none, none, true, 1, [0, 0, 0, 0], [0, 0],
          true, true, true, true⟩).bridged = false := by
  constructor <;> rfl

/-- C6 (amended): on the HTTP CONNECT handler every run ends in exactly one of
the two outcomes (an error status and no bridge, or `200` and the bridge); on
the SOCKS5 handler at most one occurs — the bridge is entered iff a success
reply reached the wire, and an error reply is only written on paths that
close without the bridge — but a failed read of the greeting or request, or a
failed reply write, closes the connection with no reply frame and no
bridge. -/
theorem c6_reply_bridge_exclusive (env : S5HandleEnv) (henv : HTTPConnectEnv) :
    ((socks5HandleConn env).frames.any isSuccessFrame = (socks5HandleConn env).bridged) ∧
    ((socks5HandleConn env).frames.any isErrorFrame = true →
      (socks5HandleConn env).bridged = false) ∧
    ((httpHandleConnect henv).2 = true ↔ (httpHandleConnect henv).1 = [.status 200]) ∧
    ((httpHandleConnect henv).2 = false →
      (httpHandleConnect henv).1 = [.status 500] ∨
        (httpHandleConnect henv).1 = [.status 502]) := by
  obtain ⟨greeting, mOk, naOk, request, dialRes, paOk, la, lb, lc, sOk, cOk, rOk, bOk⟩ := env
  obtain ⟨hs, ho, hd⟩ := henv
  refine ⟨?_, ?_, ?_, ?_⟩
  · cases greeting with
    | none => rfl
    | some ms =>
      by_cases hm : containsMethod ms methodNone
      · cases mOk with
        | false => simp [socks5HandleConn, hm]
        | true =>
          cases request with
          | none => simp [socks5HandleConn, hm, isSuccessFrame]
          | some req =>
            by_cases hc : req.cmd = cmdConnect
            · cases dialRes with
              | none =>
                cases rOk <;>
                  simp [socks5HandleConn, hm, hc, isSuccessFrame,
                    writeConnectionRefusedReply, newZeroAddrReply_rep,
                    repSuccess, repConnectionRefused]
              | some u =>
                cases paOk with
                | false => simp [socks5HandleConn, hm, hc, isSuccessFrame]
                | true =>
                  cases sOk <;>
                    simp [socks5HandleConn, hm, hc, isSuccessFrame, successReply,
                      newReply, repSuccess]
            · cases cOk <;>
                simp [socks5HandleConn, hm, hc, isSuccessFrame,
                  writeCommandNotSupportedReply, newZeroAddrReply_rep,
                  repSuccess, repCommandNotSupported]
      · cases naOk <;> simp [socks5HandleConn, hm, isSuccessFrame]
  · cases greeting with
    | none => intro h; rfl
    | some ms =>
      by_cases hm : containsMethod ms methodNone
      · cases mOk with
        | false => intro h; simp [socks5HandleConn, hm]
        | true =>
          cases request with
          | none => intro h; simp [socks5HandleConn, hm]
          | some req =>
            by_cases hc : req.cmd = cmdConnect
            · cases dialRes with
              | none =>
                intro h
                cases rOk <;> simp [socks5HandleConn, hm, hc]
              | some u =>
                cases paOk with
                | false => intro h; simp [socks5HandleConn, hm, hc]
                | true =>
                  cases sOk with
                  | false => intro h; simp [socks5HandleConn, hm, hc]
                  | true =>
                    intro h
                    exfalso
                    simp only [socks5HandleConn, hm, hc] at h
                    simp [isErrorFrame, successReply, newReply, repSuccess,
                      methodNone, methodNoAcceptable] at h
            · intro h
              cases cOk <;> simp [socks5HandleConn, hm, hc]
      · intro h
        cases naOk <;> simp [socks5HandleConn, hm]
  · cases hs with
    | false => simp [httpHandleConnect]
    | true =>
      cases ho with
      | false => simp [httpHandleConnect]
      | true => cases hd <;> simp [httpHandleConnect]
  · cases hs with
    | false => intro h; simp [httpHandleConnect]
    | true =>
      cases ho with
      | false => intro h; simp [httpHandleConnect]
      | true =>
        cases hd with
        | none => intro h; simp [httpHandleConnect]
        | some u => intro h; simp [httpHandleConnect] at h

/-- Witness for C6's amended theorem at concrete environments: a SOCKS5 run
that wrote a refusal reply did not bridge, and an HTTP run whose hijack is
unsupported emitted `500`. -/
theorem c6_reply_bridge_exclusive_witness :
    (socks5HandleConn
        ⟨some [0], true, true, some ⟨1, 1, "h:1"⟩, none, true, 1, [0, 0, 0, 0],
          [0, 0], true, true, true, true⟩).bridged = false ∧
    ((httpHandleConnect ⟨false, true, some 7⟩).1 = [.status 500] ∨
      (httpHandleConnect ⟨false, true, some 7⟩).1 = [.status 502]) :=
  ⟨(c6_reply_bridge_exclusive _ ⟨false, true, some 7⟩).2.1 (by decide),
   (c6_reply_bridge_exclusive
      ⟨some [0], true, true, some ⟨1, 1, "h:1"⟩, none, true, 1, [0, 0, 0, 0],
        [0, 0], true, true, true, true⟩ _).2.2.2 (by decide)⟩

/-- C8 counterexample: the claim says a URL with a non-empty path is rejected,
but `New` only rejects paths other than `""` and `"/"`: `http://example.com/`
(path `"/"`, non-empty) yields a dialer. -/
theorem c8_counterexample :
    isDialerErr (newDialer (fun _ => none) ""
      ⟨"http", "example.com", none, "", "", "/"⟩) = false := by
  rfl

/-- C8 (amended): `New` rejects a path other than `""` or `"/"`, a missing
scheme, a scheme outside {direct, http, https, socks5, ssh}, an http(s) URL
with an empty hostname, a socks5/ssh URL with empty hostname and absent port,
and an ssh URL without a username or (with no key file configured) without a
password; every other well-formed URL of those schemes yields the scheme's
dialer, with the scheme's default port applied when the port is absent. -/
theorem c8_new_dialer_validation (kp : String → Option Unit) (kpath : String)
    (u : GoURL) :
    (¬ (u.path = "" ∨ u.path = "/") → isDialerErr (newDialer kp kpath u) = true) ∧
    (asciiToLower u.scheme = "" → isDialerErr (newDialer kp kpath u) = true) ∧
    (asciiToLower u.scheme ∉ (["direct", "http", "https", "socks5", "ssh"] : List String) →
      isDialerErr (newDialer kp kpath u) = true) ∧
    ((asciiToLower u.scheme = "http" ∨ asciiToLower u.scheme = "https") →
      u.hostname = "" → isDialerErr (newDialer kp kpath u) = true) ∧
    ((asciiToLower u.scheme = "socks5" ∨ asciiToLower u.scheme = "ssh") →
      u.hostname = "" → u.port = none →
      isDialerErr (newDialer kp kpath u) = true) ∧
    (asciiToLower u.scheme = "ssh" → u.user = "" →
      isDialerErr (newDialer kp kpath u) = true) ∧
    (asciiToLower u.scheme = "ssh" → kpath = "" → u.pass = "" →
      isDialerErr (newDialer kp kpath u) = true) ∧
    ((u.path = "" ∨ u.path = "/") → u.hostname ≠ "" →
      (((asciiToLower u.scheme = "http" ∨ asciiToLower u.scheme = "https") →
        newDialer kp kpath u = .ok (.httpProxy
          { u with scheme := asciiToLower u.scheme,
                   port := some (u.port.getD (defaultPortForScheme (asciiToLower u.scheme))) }
          u.user u.pass)) ∧
      (asciiToLower u.scheme = "socks5" →
        newDialer kp kpath u =
          .ok (.socks5 (joinHostPort u.hostname (u.port.getD "1080")) u.user u.pass)) ∧
      (asciiToLower u.scheme = "ssh" → u.user ≠ "" →
        (kpath = "" → u.pass ≠ "" →
          newDialer kp kpath u =
            .ok (.ssh (joinHostPort u.hostname (u.port.getD "22")) u.user u.pass false)) ∧
        (kpath ≠ "" → kp kpath = some () →
          newDialer kp kpath u =
            .ok (.ssh (joinHostPort u.hostname (u.port.getD "22")) u.user u.pass true))))) := by
  obtain ⟨sc, hn, po, us, pa, ph⟩ := u
  refine ⟨?_, ?_, ?_, ?_, ?_, ?_, ?_, ?_⟩
  · intro hpath
    have hpath' : ¬ (ph = "" ∨ ph = "/") := hpath
    simp [newDialer, hpath', isDialerErr]
  · intro hs
    have hs' : asciiToLower sc = "" := hs
    by_cases hpath : ph = "" ∨ ph = "/"
    · simp [newDialer, hpath, hs', isDialerErr]
    · simp [newDialer, hpath, isDialerErr]
  · intro hs
    have hs' : asciiToLower sc ∉ (["direct", "http", "https", "socks5", "ssh"] : List String) := hs
    simp only [List.mem_cons, List.mem_singleton, not_or] at hs'
    obtain ⟨h1, h2, h3, h4, h5⟩ := hs'
    by_cases hpath : ph = "" ∨ ph = "/"
    · by_cases h0 : asciiToLower sc = ""
      · simp [newDialer, hpath, h0, isDialerErr]
      · simp [newDialer, hpath, h0, h1, h2, h3, h4, h5, isDialerErr]
    · simp [newDialer, hpath, isDialerErr]
  · intro hs hh
    have hh' : hn = "" := hh
    by_cases hpath : ph = "" ∨ ph = "/"
    · rcases hs with hs | hs <;>
      · have hs' : asciiToLower sc = _ := hs
        simp [newDialer, hpath, hs', hh', newHTTPProxyDialer, isDialerErr]
    · simp [newDialer, hpath, isDialerErr]
  · intro hs hh hp
    have hh' : hn = "" := hh
    have hp' : po = none := hp
    by_cases hpath : ph = "" ∨ ph = "/"
    · rcases hs with hs | hs <;>
      · have hs' : asciiToLower sc = _ := hs
        simp [newDialer, hpath, hs', hh', hp', urlHost, firstIdxOf,
          newSOCKS5ProxyDialer, newSSHProxyDialer, isDialerErr]
    · simp [newDialer, hpath, isDialerErr]
  · intro hs hu
    have hs' : asciiToLower sc = "ssh" := hs
    have hu' : us = "" := hu
    by_cases hpath : ph = "" ∨ ph = "/"
    · by_cases hh : hn = ""
      · cases po with
        | none =>
          simp [newDialer, hpath, hs', hh, hu', urlHost, firstIdxOf,
            newSSHProxyDialer, isDialerErr]
        | some p =>
          simp [newDialer, hpath, hs', hh, hu', urlHost,
            joinHostPort_ne_empty "" p, newSSHProxyDialer, isDialerErr]
      · cases po with
        | none =>
          simp [newDialer, hpath, hs', hh, hu', urlHost,
            joinHostPort_ne_empty hn (defaultPortForScheme "ssh"),
            newSSHProxyDialer, isDialerErr]
        | some p =>
          simp [newDialer, hpath, hs', hh, hu', urlHost,
            joinHostPort_ne_empty hn p, newSSHProxyDialer, isDialerErr]
    · simp [newDialer, hpath, isDialerErr]
  · intro hs hk hpw
    have hs' : asciiToLower sc = "ssh" := hs
    have hk' : kpath = "" := hk
    have hpw' : pa = "" := hpw
    subst hk'
    subst hpw'
    have hssh : ∀ addr u2, isDialerErr (newSSHProxyDialer kp "" addr u2 "") = true := by
      intro addr u2
      unfold newSSHProxyDialer
      by_cases h1 : addr = ""
      · simp [h1, isDialerErr]
      · by_cases h2 : u2 = ""
        · simp [h1, h2, isDialerErr]
        · simp [h1, h2, isDialerErr]
    by_cases hpath : ph = "" ∨ ph = "/"
    · by_cases hdef : ¬ hn = "" ∧ po = none
      · simp [newDialer, hpath, hs', hdef, hssh]
      · simp [newDialer, hpath, hs', hdef, hssh]
    · simp [newDialer, hpath, isDialerErr]
  · intro hpath hh
    have hpath' : ph = "" ∨ ph = "/" := hpath
    have hh' : ¬ hn = "" := hh
    refine ⟨?_, ?_, ?_⟩
    · rintro (hs | hs) <;>
      · have hs' : asciiToLower sc = _ := hs
        cases po with
        | none => simp [newDialer, hpath', hs', hh', newHTTPProxyDialer]
        | some p => simp [newDialer, hpath', hs', hh', newHTTPProxyDialer]
    · intro hs
      have hs' : asciiToLower sc = "socks5" := hs
      cases po with
      | none =>
        simp [newDialer, hpath', hs', hh', urlHost, newSOCKS5ProxyDialer,
          joinHostPort_ne_empty hn "1080", defaultPortForScheme]
      | some p =>
        simp [newDialer, hpath', hs', hh', urlHost, newSOCKS5ProxyDialer,
          joinHostPort_ne_empty hn p]
    · intro hs hu
      have hs' : asciiToLower sc = "ssh" := hs
      have hu' : ¬ us = "" := hu
      constructor
      · intro hk hpw
        have hpw' : ¬ pa = "" := hpw
        cases po with
        | none =>
          simp [newDialer, hpath', hs', hh', hk, hu', hpw', urlHost,
            newSSHProxyDialer, joinHostPort_ne_empty hn "22",
            defaultPortForScheme]
        | some p =>
          simp [newDialer, hpath', hs', hh', hk, hu', hpw', urlHost,
            newSSHProxyDialer, joinHostPort_ne_empty hn p]
      · intro hk hkp
        have hkp' : kp kpath = some () := hkp
        cases po with
        | none =>
          simp [newDialer, hpath', hs', hh', hk, hu', hkp', urlHost,
            newSSHProxyDialer, joinHostPort_ne_empty hn "22",
            defaultPortForScheme]
        | some p =>
          simp [newDialer, hpath', hs', hh', hk, hu', hkp', urlHost,
            newSSHProxyDialer, joinHostPort_ne_empty hn p]

/-- Witness for C8's amended theorem at a concrete URL: `SSH://alice:pw@host`
(uppercase scheme, no port, no key file) yields the SSH dialer for
`host:22`. -/
theorem c8_new_dialer_validation_witness :
    newDialer (fun _ => some ()) "" ⟨"SSH", "host", none, "alice", "pw", ""⟩ =
      .ok (.ssh "host:22" "alice" "pw" false) := by
  have h := ((c8_new_dialer_validation (fun _ => some ()) ""
      ⟨"SSH", "host", none, "alice", "pw", ""⟩).2.2.2.2.2.2.2
      (Or.inl rfl) (by decide)).2.2 (by decide) (by decide)
  exact (h.1 rfl (by decide)).trans (by rfl)

/-- C9: on the HTTP CONNECT path, a request Host without a port (here: a plain
name with no colon and no brackets) gets `":443"` appended to form the dial
target, while a Host that already carries a port (`host:port`) is passed to
the dialer unchanged. -/
theorem c9_connect_target (b p : String)
    (hb : ∀ c ∈ b.data, c ≠ ':' ∧ c ≠ '[' ∧ c ≠ ']')
    (hp : ∀ c ∈ p.data, c ≠ ':' ∧ c ≠ '[' ∧ c ≠ ']') :
    connectTarget b = b ++ ":443" ∧
    connectTarget (b ++ ":" ++ p) = b ++ ":" ++ p := by
  constructor
  · have hnc : ':' ∉ b.data := fun h => (hb _ h).1 rfl
    have hsplit : splitHostPort b = none := by
      unfold splitHostPort
      simp [lastIdxOf_eq_none hnc]
    have hjoin : joinHostPort b "443" = b ++ ":" ++ "443" := by
      unfold joinHostPort
      simp [firstIdxOf_eq_none hnc]
    have hstr : b ++ ":" ++ "443" = b ++ ":443" := by
      apply congrArg String.mk
      show (b ++ ":").data ++ "443".data = b.data ++ ":443".data
      simp [String.data_append]
    unfold connectTarget
    rw [hsplit, hjoin, hstr]
  · have hdata : (b ++ ":" ++ p).data = b.data ++ ':' :: p.data := by
      show (b ++ ":").data ++ p.data = b.data ++ ':' :: p.data
      simp [String.data_append]
    have hpc : ':' ∉ p.data := fun h => (hp _ h).1 rfl
    have hlast : lastIdxOf ':' (b.data ++ ':' :: p.data) = some b.data.length :=
      lastIdxOf_append_cons b.data hpc
    have hhead : (b.data ++ ':' :: p.data).head? ≠ some '[' := by
      cases hb' : b.data with
      | nil => simp
      | cons x xs =>
        have hx : x ≠ '[' := ((hb x (by rw [hb']; exact List.mem_cons_self x xs)).2.1)
        simp [hx]
    have hnb : '[' ∉ b.data ++ ':' :: p.data := by
      intro h
      rcases List.mem_append.mp h with h | h
      · exact (hb _ h).2.1 rfl
      · rcases List.mem_cons.mp h with h | h
        · exact absurd h (by decide)
        · exact (hp _ h).2.1 rfl
    have hnbr : ']' ∉ b.data ++ ':' :: p.data := by
      intro h
      rcases List.mem_append.mp h with h | h
      · exact (hb _ h).2.2 rfl
      · rcases List.mem_cons.mp h with h | h
        · exact absurd h (by decide)
        · exact (hp _ h).2.2 rfl
    have htake : (b.data ++ ':' :: p.data).take b.data.length = b.data :=
      List.take_left b.data _
    have hdrop : (b.data ++ ':' :: p.data).drop (b.data.length + 1) = p.data := by
      have : b.data ++ ':' :: p.data = (b.data ++ [':']) ++ p.data := by simp
      rw [this]
      have hlen : (b.data ++ [':']).length = b.data.length + 1 := by simp
      rw [← hlen]
      exact List.drop_left _ _
    have hncb : ':' ∉ b.data := fun h => (hb _ h).1 rfl
    have hsplit : splitHostPort (b ++ ":" ++ p) = some (b, p) := by
      unfold splitHostPort
      simp only [hdata, hlast, if_neg hhead]
      rw [if_neg, if_neg, if_neg]
      · rw [htake, hdrop]
      · simp [firstIdxOf_eq_none hnbr]
      · simp [firstIdxOf_eq_none hnb]
      · rw [htake]
        simp [firstIdxOf_eq_none hncb]
    unfold connectTarget
    rw [hsplit]

/-- Witness for C9 at concrete hosts: `"example.com"` gains `":443"`, while
`"example.com:80"` is passed through unchanged. -/
theorem c9_connect_target_witness :
    connectTarget "example.com" = "example.com:443" ∧
    connectTarget "example.com:80" = "example.com:80" := by
  have h := c9_connect_target "example.com" "80" (by decide) (by decide)
  refine ⟨h.1.trans (by decide), ?_⟩
  have heq : ("example.com" ++ ":" ++ "80" : String) = "example.com:80" := by decide
  have h2 := h.2
  rw [heq] at h2
  exact h2

end Conduit
